import Mathlib

/-!
Verification of the inference-time composition and post-processing layer of
`nnsvs/model.py`: the shallow autoregressive (SAR) filter pair, the residual
pitch correction, and the multi-stream parametric composer.

Representation conventions.  The batch and time axes of the source tensors are
inert for everything except the SAR time recursion, so:

* a single frame's feature vector `(C,)` is a `List`;
* a `(B, T, C)` tensor subject to per-frame operations is a function
  `ℕ → ℕ → List ℝ` (batch index, time index to frame);
* for the SAR filters, which recurse along time and are independent across
  batch elements, a `(C, T)` block (one batch element, channel-major after the
  source's `transpose(1, 2)`) is a `List (List α)`: per channel, a time signal.

Float arithmetic is modelled as exact arithmetic in a field (`ℝ` where the
source uses `tanh`/`log`, a generic `Field α` for the purely rational filter
algebra, so that witnesses can evaluate at `ℚ`).
-/

section FilterCore

variable {α : Type*} [Field α]

/-- Dot product of filter taps against a history list.  `taps = [c0, c1, …]`,
`hist = [v n, v (n-1), …]`, so the value is `Σ k, c k * v (n - k)`. -/
def dotRev (taps hist : List α) : α :=
  (List.zipWith (· * ·) taps hist).sum

/-- Unit impulse of a given length: the source's `bi = torch.zeros_like(ai); bi[0] = 1`. -/
def impulse (n : ℕ) : List α :=
  match n with
  | 0 => []
  | m + 1 => 1 :: List.replicate m 0

/-- Causal FIR recursion: consumes the input signal, carrying the history of
already-consumed inputs (most recent first); each output sample is the dot
product of the taps with the current-and-past inputs. -/
def firGo (d : List α) : List α → List α → List α
  | _hist, [] => []
  | hist, yn :: rest => dotRev d (yn :: hist) :: firGo d (yn :: hist) rest

/-- Direct-form IIR recursion of `torchaudio.functional.lfilter` (with
`clamp=False`):
`y[n] = (Σ k, b[k] * x[n-k] - Σ k ≥ 1, a[k] * y[n-k]) / a[0]`,
carrying input history `hx` and output history `hy` (most recent first). -/
def lfilterGo (a b : List α) : List α → List α → List α → List α
  | _hx, _hy, [] => []
  | hx, hy, xn :: rest =>
    let yn := (dotRev b (xn :: hx) - dotRev a.tail hy) / a.headD 0
    yn :: lfilterGo a b (xn :: hx) (yn :: hy) rest

/-- `torchaudio.functional.lfilter waveform a_coeffs b_coeffs` with zero initial
conditions, one scalar dimension. -/
def lfilter (a b x : List α) : List α :=
  lfilterGo a b [] [] x

/-- The slicing core of `split_streams` (imported from `nnsvs.multistream`,
which is not under `src/`): consecutive sub-vectors of the declared widths.
The spec §4.4 (StreamSplitter) shape check — `LayoutMismatchError` when the
declared widths do not sum to the vector's width — is modelled by
`split_streams_checked`; theorems about callers of this unchecked core carry
the sum-of-widths precondition as an explicit hypothesis. -/
def split_streams (l : List α) (stream_sizes : List ℕ) : List (List α) :=
  match stream_sizes with
  | [] => []
  | s :: rest => l.take s :: split_streams (l.drop s) rest

/-- Modelled from the spec: `split_streams` of `nnsvs.multistream` (not under
`src/`) with the §4.4 shape check: it fails (`none`, the spec's
`LayoutMismatchError`) when the sum of the declared widths differs from the
flat vector's width, and otherwise splits by the widths. -/
def split_streams_checked (l : List α) (stream_sizes : List ℕ) :
    Option (List (List α)) :=
  if stream_sizes.sum = l.length then some (split_streams l stream_sizes) else none

/-- Modelled from the spec: `TrTimeInvFIRFilter` (from `nnsvs.dsp`, not under
`src/`).  Per §4.2 the analysis side convolves each scalar dimension causally
with its learned taps, with zero-history initial conditions, the taps being
applied time-reversed relative to the stored coefficient order so that the
synthesis IIR of `_shallow_ar_inference` (which flips the stored coefficients)
inverts the analysis transform exactly. -/
def trTimeInvFIRFilter (taps : List α) (sig : List α) : List α :=
  firGo taps.reverse [] sig

/-- The source's `_shallow_ar_inference(out, stream_sizes, analysis_filts)`:
split the channels by `stream_sizes`; for each stream and each of its scalar
dimensions, run the IIR filter whose denominator is that dimension's stored
taps flipped (`ai = a[idx].view(-1).flip(0)`) and whose numerator is a unit
impulse (`bi = zeros_like(ai); bi[0] = 1`); concatenate the filtered streams
back in order.  `out` is channel-major (per channel, a time signal);
`analysis_filts` gives, per stream, per scalar dimension, its stored taps. -/
def _shallow_ar_inference (out : List (List α)) (stream_sizes : List ℕ)
    (analysis_filts : List (List (List α))) : List (List α) :=
  let out_streams := split_streams out stream_sizes
  (List.zipWith (fun os a =>
    List.zipWith (fun sig taps =>
      let ai := taps.reverse
      let bi : List α := impulse ai.length
      lfilter ai bi sig) os a) out_streams analysis_filts).flatten

/-- The source's `Conv1dResnetSAR.preprocess_target(y)`: split the channels by
the stream sizes, pass each stream through its analysis filter, concatenate. -/
def preprocess_target (y : List (List α)) (stream_sizes : List ℕ)
    (analysis_filts : List (List (List α))) : List (List α) :=
  let ys := split_streams y stream_sizes
  (List.zipWith (fun yi fi =>
    List.zipWith (fun sig taps => trTimeInvFIRFilter taps sig) yi fi) ys analysis_filts).flatten

end FilterCore

section Pitch

/-- Single-frame body of the source's `predict_lf0_with_residual`: the
de-normalization of the score pitch, the tanh-bounded residual, the residual
connection in the de-normalized log-F0 domain, and the re-normalization, all
of which act pointwise per (batch, time) position.  Returns
`(lf0_pred, lf0_residual)`. -/
noncomputable def predict_lf0_frame (in_frame out_frame : List ℝ)
    (in_lf0_idx : ℕ) (in_lf0_min in_lf0_max : ℝ)
    (out_lf0_idx : ℕ) (out_lf0_mean out_lf0_scale : ℝ)
    (residual_f0_max_cent : ℝ) : ℝ × ℝ :=
  let lf0_score := in_frame.getD in_lf0_idx 0
  let lf0_score_denorm := lf0_score * (in_lf0_max - in_lf0_min) + in_lf0_min
  let max_lf0_ratio := residual_f0_max_cent * Real.log 2 / 1200
  let lf0_residual := max_lf0_ratio * Real.tanh (out_frame.getD out_lf0_idx 0)
  let lf0_pred_denorm := lf0_score_denorm + lf0_residual
  let lf0_pred := (lf0_pred_denorm - out_lf0_mean) / out_lf0_scale
  (lf0_pred, lf0_residual)

/-- The source's `predict_lf0_with_residual` on a 3-axis `(B, T, C)` output
(the non-MDN branch): all tensor operations are pointwise over (batch, time),
with `lf0_score`/`lf0_score_denorm` read from the input features and the raw
residual read from column `out_lf0_idx` of the output features. -/
noncomputable def predict_lf0_with_residual
    (in_feats : ℕ → ℕ → List ℝ) (out_feats : ℕ → ℕ → List ℝ)
    (in_lf0_idx : ℕ) (in_lf0_min in_lf0_max : ℝ)
    (out_lf0_idx : ℕ) (out_lf0_mean out_lf0_scale : ℝ)
    (residual_f0_max_cent : ℝ) : (ℕ → ℕ → ℝ) × (ℕ → ℕ → ℝ) :=
  (fun b t => (predict_lf0_frame (in_feats b t) (out_feats b t) in_lf0_idx in_lf0_min
      in_lf0_max out_lf0_idx out_lf0_mean out_lf0_scale residual_f0_max_cent).1,
   fun b t => (predict_lf0_frame (in_feats b t) (out_feats b t) in_lf0_idx in_lf0_min
      in_lf0_max out_lf0_idx out_lf0_mean out_lf0_scale residual_f0_max_cent).2)

/-- The source's `predict_lf0_with_residual` on a 4-axis `(B, T, G, C)`
per-mixture-component output (the MDN branch): the de-normalized score pitch
`(B, T, 1)` broadcasts against the per-component residual `(B, T, G)`, so the
identical transform is applied at every component index `g`. -/
noncomputable def predict_lf0_with_residual_mdn
    (in_feats : ℕ → ℕ → List ℝ) (out_feats : ℕ → ℕ → ℕ → List ℝ)
    (in_lf0_idx : ℕ) (in_lf0_min in_lf0_max : ℝ)
    (out_lf0_idx : ℕ) (out_lf0_mean out_lf0_scale : ℝ)
    (residual_f0_max_cent : ℝ) : (ℕ → ℕ → ℕ → ℝ) × (ℕ → ℕ → ℕ → ℝ) :=
  (fun b t g => (predict_lf0_frame (in_feats b t) (out_feats b t g) in_lf0_idx in_lf0_min
      in_lf0_max out_lf0_idx out_lf0_mean out_lf0_scale residual_f0_max_cent).1,
   fun b t g => (predict_lf0_frame (in_feats b t) (out_feats b t g) in_lf0_idx in_lf0_min
      in_lf0_max out_lf0_idx out_lf0_mean out_lf0_scale residual_f0_max_cent).2)

/-- The `in_lf0_*` / `out_lf0_*` attributes shared by every residual-F0
prediction model in the source. -/
structure ResF0Params where
  in_lf0_idx : ℕ
  in_lf0_min : ℝ
  in_lf0_max : ℝ
  out_lf0_idx : ℕ
  out_lf0_mean : ℝ
  out_lf0_scale : ℝ

/-- Shared body of the deterministic (`use_mdn = False`) forward step of the
residual-F0 models: run the core network, apply `predict_lf0_with_residual`
(with its default `residual_f0_max_cent = 600`, which the models do not
override), and write the corrected pitch into column `out_lf0_idx` of the raw
output (`mu[:, :, self.out_lf0_idx] = lf0_pred.squeeze(-1)`).  One frame. -/
noncomputable def resF0_forward_frame (p : ResF0Params)
    (net : List ℝ → List ℝ) (x : List ℝ) : List ℝ × ℝ :=
  let mu := net x
  let pr := predict_lf0_frame x mu p.in_lf0_idx p.in_lf0_min p.in_lf0_max
      p.out_lf0_idx p.out_lf0_mean p.out_lf0_scale 600
  (mu.set p.out_lf0_idx pr.1, pr.2)

/-- Shared body of the MDN (`use_mdn = True`) forward step of the residual-F0
models: the raw output is per-mixture-component, and the per-component
corrected pitch is written into column `out_lf0_idx` of every component
(`mu[:, :, :, self.out_lf0_idx] = lf0_pred.squeeze(-1)`).  One frame. -/
noncomputable def resF0_forward_frame_mdn (p : ResF0Params)
    (net : List ℝ → List (List ℝ)) (x : List ℝ) : List (List ℝ) × List ℝ :=
  let mu := net x
  let preds := mu.map (fun comp => (predict_lf0_frame x comp p.in_lf0_idx p.in_lf0_min
      p.in_lf0_max p.out_lf0_idx p.out_lf0_mean p.out_lf0_scale 600).1)
  let residuals := mu.map (fun comp => (predict_lf0_frame x comp p.in_lf0_idx p.in_lf0_min
      p.in_lf0_max p.out_lf0_idx p.out_lf0_mean p.out_lf0_scale 600).2)
  (List.zipWith (fun comp v => comp.set p.out_lf0_idx v) mu preds, residuals)

/-- `ResF0Conv1dResnet` with `use_mdn = False`: the lf0 attributes plus the
convolutional core (treated as an opaque per-frame function). -/
structure ResF0Conv1dResnet where
  params : ResF0Params
  net : List ℝ → List ℝ

/-- The source's `ResF0Conv1dResnet.forward` (deterministic branch). -/
noncomputable def ResF0Conv1dResnet.forward (m : ResF0Conv1dResnet) (x : List ℝ) :
    List ℝ × ℝ :=
  resF0_forward_frame m.params m.net x

/-- The source's `ResF0Conv1dResnet.inference` (deterministic branch):
`return self(x, lengths)[0]`. -/
noncomputable def ResF0Conv1dResnet.inference (m : ResF0Conv1dResnet) (x : List ℝ) :
    List ℝ :=
  (m.forward x).1

/-- `ResSkipF0FFConvLSTM` with `use_mdn = False`: the FF/conv/LSTM core
(including its internal concatenation of the score lf0 column) is opaque; the
residual-F0 correction and injection are shared with `ResF0Conv1dResnet`. -/
structure ResSkipF0FFConvLSTM where
  params : ResF0Params
  net : List ℝ → List ℝ

/-- The source's `ResSkipF0FFConvLSTM.forward` (deterministic branch). -/
noncomputable def ResSkipF0FFConvLSTM.forward (m : ResSkipF0FFConvLSTM) (x : List ℝ) :
    List ℝ × ℝ :=
  resF0_forward_frame m.params m.net x

/-- The source's `ResSkipF0FFConvLSTM.inference` (deterministic branch). -/
noncomputable def ResSkipF0FFConvLSTM.inference (m : ResSkipF0FFConvLSTM) (x : List ℝ) :
    List ℝ :=
  (m.forward x).1

/-- `ResF0VariancePredictor`: always deterministic; conv/fc core opaque. -/
structure ResF0VariancePredictor where
  params : ResF0Params
  net : List ℝ → List ℝ

/-- The source's `ResF0VariancePredictor.forward`. -/
noncomputable def ResF0VariancePredictor.forward (m : ResF0VariancePredictor) (x : List ℝ) :
    List ℝ × ℝ :=
  resF0_forward_frame m.params m.net x

/-- The source's `ResF0VariancePredictor.inference`: `return self(x, lengths)[0]`. -/
noncomputable def ResF0VariancePredictor.inference (m : ResF0VariancePredictor) (x : List ℝ) :
    List ℝ :=
  (m.forward x).1

end Pitch

section SARModels

variable {α : Type*} [Field α] {X : Type*}

/-- `Conv1dResnet` with `use_mdn = False` (deterministic): the convolutional
core is opaque; its output is a channel-major `(C, T)` block per input. -/
structure Conv1dResnet (α : Type*) (X : Type*) where
  net : X → List (List α)

/-- The source's `Conv1dResnet.forward` (deterministic branch). -/
def Conv1dResnet.forward (m : Conv1dResnet α X) (x : X) : List (List α) :=
  m.net x

/-- The source's `Conv1dResnet.inference` (deterministic branch):
`return self(x, lengths)`. -/
def Conv1dResnet.inference (m : Conv1dResnet α X) (x : X) : List (List α) :=
  m.forward x

/-- `Conv1dResnetSAR`: always constructed with `use_mdn = False`; inherits
`Conv1dResnet.forward`, carries the stream sizes and the per-stream analysis
filter coefficients. -/
structure Conv1dResnetSAR (α : Type*) (X : Type*) where
  net : X → List (List α)
  stream_sizes : List ℕ
  analysis_filts : List (List (List α))

/-- `Conv1dResnetSAR.forward`, inherited unchanged from `Conv1dResnet`. -/
def Conv1dResnetSAR.forward (m : Conv1dResnetSAR α X) (x : X) : List (List α) :=
  m.net x

/-- The source's `Conv1dResnetSAR.inference`: runs the core network and then
`_shallow_ar_inference`, rather than returning the forward output. -/
def Conv1dResnetSAR.inference (m : Conv1dResnetSAR α X) (x : X) : List (List α) :=
  _shallow_ar_inference (m.net x) m.stream_sizes m.analysis_filts

end SARModels

section Multistream

/-- `MultistreamParametricModel`: the three sub-predictors (opaque per-frame
functions, the pitch one split into its residual-F0 attributes and its opaque
core), their stream sizes, and the composer's own lf0 parameters. -/
structure MultistreamParametricModel where
  energy_model : List ℝ → List ℝ
  energy_stream_sizes : List ℕ
  pitch_net : List ℝ → List ℝ
  pitch_params : ResF0Params
  pitch_stream_sizes : List ℕ
  timbre_model : List ℝ → List ℝ
  timbre_stream_sizes : List ℕ
  in_lf0_idx : ℕ
  in_lf0_min : ℝ
  in_lf0_max : ℝ
  out_lf0_idx : ℕ
  out_lf0_mean : ℝ
  out_lf0_scale : ℝ

/-- The source's `MultistreamParametricModel._set_lf0_params`: copies the
composer's `in_lf0_idx`, `in_lf0_min`, `in_lf0_max`, `out_lf0_mean`,
`out_lf0_scale` into the pitch model, leaving the pitch model's `out_lf0_idx`
untouched (source comment: do not overwrite `out_lf0_idx`).  The source guards
this with `hasattr(self.pitch_model, "out_lf0_mean")`, which holds for the
residual-F0 pitch models assumed by `forward` (source comment: so far assuming
residual F0 prediction models). -/
def MultistreamParametricModel._set_lf0_params (m : MultistreamParametricModel) :
    MultistreamParametricModel :=
  { m with pitch_params :=
    { m.pitch_params with
        in_lf0_idx := m.in_lf0_idx
        in_lf0_min := m.in_lf0_min
        in_lf0_max := m.in_lf0_max
        out_lf0_mean := m.out_lf0_mean
        out_lf0_scale := m.out_lf0_scale } }

/-- Body of `MultistreamParametricModel.forward` after `_set_lf0_params`:
energy prediction (keeping stream 0), residual-F0 pitch prediction, a 2/3/4-way
split of the pitch output, timbre prediction split into `{mgc, bap}`, the
energy column prepended to `mgc`, and the final concatenation in the order
`mgc, lf0, vuv, bap, (vib), (vib_flags)`.  The splits use the spec-modelled
checked splitter, so `none` models both the spec's `LayoutMismatchError`
(declared stream widths not summing to a predictor's output width) and the
exceptions the source raises on an empty energy stream list, on a pitch stream
arity other than 2, 3 or 4, or on a timbre stream arity other than 2. -/
noncomputable def MultistreamParametricModel.forward_post (m : MultistreamParametricModel)
    (x : List ℝ) : Option (List ℝ × ℝ) :=
  match split_streams_checked (m.energy_model x) m.energy_stream_sizes with
  | none => none
  | some [] => none
  | some (erg :: _) =>
    let pr := resF0_forward_frame m.pitch_params m.pitch_net x
    match split_streams_checked pr.1 m.pitch_stream_sizes with
    | none => none
    | some pitch_parts =>
      match split_streams_checked (m.timbre_model x) m.timbre_stream_sizes with
      | none => none
      | some [mgc0, bap] =>
        let mgc := erg ++ mgc0
        match pitch_parts with
        | [lf0, vuv] => some (mgc ++ lf0 ++ vuv ++ bap, pr.2)
        | [lf0, vuv, vib] => some (mgc ++ lf0 ++ vuv ++ bap ++ vib, pr.2)
        | [lf0, vuv, vib, vib_flags] =>
          some (mgc ++ lf0 ++ vuv ++ bap ++ vib ++ vib_flags, pr.2)
        | _ => none
      | some _ => none

/-- The source's `MultistreamParametricModel.forward`: `_set_lf0_params` runs
first, then the sub-predictors are invoked. -/
noncomputable def MultistreamParametricModel.forward (m : MultistreamParametricModel)
    (x : List ℝ) : Option (List ℝ × ℝ) :=
  (m._set_lf0_params).forward_post x

/-- The source's `MultistreamParametricModel.inference`:
`out, _ = self(x, lengths); return out`. -/
noncomputable def MultistreamParametricModel.inference (m : MultistreamParametricModel)
    (x : List ℝ) : Option (List ℝ) :=
  (m.forward x).map Prod.fst

/-- One stream-size consistency assertion of
`MultistreamParametricModel.__init__`: `hasattr(model, "out_dim")` is modelled
by the option being `some`; on mismatch the constructor raises
(`Except.error`) and no object is built. -/
def checkStreamDim (out_dim : Option ℕ) (stream_sizes : List ℕ) (msg : String) :
    Except String Unit :=
  match out_dim with
  | none => Except.ok ()
  | some d => if d = stream_sizes.sum then Except.ok () else Except.error msg

/-- The assertion sequence of `MultistreamParametricModel.__init__`: energy,
pitch, then timbre; the first failing assertion raises. -/
def multistream_init_checks
    (energy_out_dim : Option ℕ) (energy_stream_sizes : List ℕ)
    (pitch_out_dim : Option ℕ) (pitch_stream_sizes : List ℕ)
    (timbre_out_dim : Option ℕ) (timbre_stream_sizes : List ℕ) :
    Except String Unit :=
  match checkStreamDim energy_out_dim energy_stream_sizes
    "Energy model output dimension is not consistent with the stream sizes" with
  | Except.error msg => Except.error msg
  | Except.ok _ =>
    match checkStreamDim pitch_out_dim pitch_stream_sizes
      "Pitch model output dimension is not consistent with the stream sizes" with
    | Except.error msg => Except.error msg
    | Except.ok _ =>
      checkStreamDim timbre_out_dim timbre_stream_sizes
        "Timbre model output dimension is not consistent with the stream sizes"

end Multistream

/-- A concrete `Conv1dResnetSAR` over `ℚ`: one stream of one channel, analysis
taps `[1, 1]`, core network output `[[1, 0]]` regardless of input. -/
def csarExample : Conv1dResnetSAR ℚ Unit where
  net := fun _ => [[1, 0]]
  stream_sizes := [1]
  analysis_filts := [[[1, 1]]]

/-- A concrete composer with the widths of the spec scenario: energy width 1,
timbre widths `[179, 15]`, pitch widths `[1, 1, 3]`. -/
noncomputable def mstreamExample : MultistreamParametricModel where
  energy_model := fun _ => [1]
  energy_stream_sizes := [1]
  pitch_net := fun _ => [0, 0, 0, 0, 0]
  pitch_params := ⟨0, 0, 1, 0, 0, 1⟩
  pitch_stream_sizes := [1, 1, 3]
  timbre_model := fun _ => List.replicate 194 0
  timbre_stream_sizes := [179, 15]
  in_lf0_idx := 0
  in_lf0_min := 0
  in_lf0_max := 1
  out_lf0_idx := 0
  out_lf0_mean := 0
  out_lf0_scale := 1

/-- A small concrete composer (all stream widths 1) for end-to-end evaluation. -/
noncomputable def mstreamSmall : MultistreamParametricModel where
  energy_model := fun _ => [1]
  energy_stream_sizes := [1]
  pitch_net := fun _ => [0, 3]
  pitch_params := ⟨0, 0, 1, 0, 0, 1⟩
  pitch_stream_sizes := [1, 1]
  timbre_model := fun _ => [2, 4]
  timbre_stream_sizes := [1, 1]
  in_lf0_idx := 0
  in_lf0_min := 0
  in_lf0_max := 1
  out_lf0_idx := 0
  out_lf0_mean := 0
  out_lf0_scale := 1

section FilterLemmas

variable {α : Type*} [Field α]

theorem dotRev_nil_left (h : List α) : dotRev [] h = 0 := rfl

theorem dotRev_cons_cons (c : α) (cs : List α) (v : α) (h : List α) :
    dotRev (c :: cs) (v :: h) = c * v + dotRev cs h := by
  simp [dotRev]

theorem dotRev_replicate_zero (k : ℕ) (h : List α) :
    dotRev (List.replicate k 0) h = 0 := by
  induction k generalizing h with
  | zero => rfl
  | succ n ih =>
    cases h with
    | nil => simp [dotRev]
    | cons v hs =>
      rw [List.replicate_succ, dotRev_cons_cons, ih, zero_mul, zero_add]

theorem dotRev_impulse (k : ℕ) (v : α) (h : List α) :
    dotRev (impulse (k + 1)) (v :: h) = v := by
  rw [impulse, dotRev_cons_cons, dotRev_replicate_zero, one_mul, add_zero]

theorem lfilterGo_length (a b : List α) :
    ∀ (x hx hy : List α), (lfilterGo a b hx hy x).length = x.length := by
  intro x
  induction x with
  | nil => intro hx hy; rfl
  | cons xn rest ih =>
    intro hx hy
    simp only [lfilterGo, List.length_cons]
    rw [ih]

theorem lfilter_length (a b x : List α) : (lfilter a b x).length = x.length :=
  lfilterGo_length a b x [] []

theorem firGo_length (d : List α) :
    ∀ (y hist : List α), (firGo d hist y).length = y.length := by
  intro y
  induction y with
  | nil => intro hist; rfl
  | cons yn rest ih =>
    intro hist
    simp only [firGo, List.length_cons]
    rw [ih]

omit [Field α] in
theorem split_streams_length (l : List α) (sizes : List ℕ) :
    (split_streams l sizes).length = sizes.length := by
  induction sizes generalizing l with
  | nil => rfl
  | cons s rest ih => simp [split_streams, ih]

omit [Field α] in
theorem split_streams_checked_of_sum (l : List α) (sizes : List ℕ)
    (h : sizes.sum = l.length) :
    split_streams_checked l sizes = some (split_streams l sizes) := by
  rw [split_streams_checked, if_pos h]

omit [Field α] in
theorem split_streams_checked_length (l : List α) (sizes : List ℕ)
    (ps : List (List α)) (h : split_streams_checked l sizes = some ps) :
    ps.length = sizes.length := by
  rw [split_streams_checked] at h
  by_cases hc : sizes.sum = l.length
  · rw [if_pos hc] at h
    cases h
    exact split_streams_length l sizes
  · rw [if_neg hc] at h
    exact absurd h (by simp)

/-- Core round-trip: running the synthesis IIR (denominator `d0 :: dt`,
numerator a unit impulse) over the output of the analysis FIR with the same
taps reproduces the analysed signal, provided the leading denominator
coefficient is nonzero.  The histories are threaded through the induction. -/
theorem lfilterGo_firGo (d0 : α) (dt : List α) (hd0 : d0 ≠ 0) :
    ∀ (y hx hist : List α),
      lfilterGo (d0 :: dt) (impulse (dt.length + 1)) hx hist
        (firGo (d0 :: dt) hist y) = y := by
  intro y
  induction y with
  | nil => intro hx hist; rfl
  | cons c rest ih =>
    intro hx hist
    simp only [firGo, lfilterGo]
    rw [dotRev_impulse, dotRev_cons_cons]
    simp only [List.tail_cons, List.headD_cons]
    rw [add_sub_cancel_right, mul_div_cancel_left₀ c hd0]
    exact congrArg (c :: ·) (ih (dotRev (d0 :: dt) (c :: hist) :: hx) (c :: hist))

/-- Per-dimension round trip in stored-coefficient terms: the synthesis filter
of `_shallow_ar_inference` exactly inverts the analysis filter. -/
theorem lfilter_trTimeInvFIRFilter (taps : List α) (sig : List α)
    (hne : taps ≠ []) (hhead : taps.reverse.headD 0 ≠ 0) :
    lfilter taps.reverse (impulse taps.reverse.length) (trTimeInvFIRFilter taps sig) = sig := by
  obtain ⟨d0, dt, hrev⟩ : ∃ d0 dt, taps.reverse = d0 :: dt := by
    cases hr : taps.reverse with
    | nil => exact absurd (by simpa using congrArg List.reverse hr) hne
    | cons d0 dt => exact ⟨d0, dt, rfl⟩
  rw [trTimeInvFIRFilter, lfilter, hrev]
  have hd0 : d0 ≠ 0 := by rw [hrev] at hhead; simpa using hhead
  simpa using lfilterGo_firGo d0 dt hd0 sig [] []

end FilterLemmas


section TanhFacts

open Filter

theorem abs_tanh_lt_one (x : ℝ) : |Real.tanh x| < 1 := by
  rw [Real.tanh_eq_sinh_div_cosh, abs_div, abs_of_pos (Real.cosh_pos x),
    div_lt_one (Real.cosh_pos x), abs_lt]
  refine ⟨?_, Real.sinh_lt_cosh x⟩
  nlinarith [Real.cosh_add_sinh x, Real.exp_pos x]

theorem tanh_eq_one_sub (x : ℝ) :
    Real.tanh x = 1 - 2 / (Real.exp (2 * x) + 1) := by
  have ha := Real.exp_pos x
  have hb := Real.exp_pos (-x)
  have h2 : Real.exp (2 * x) = Real.exp x * Real.exp x := by
    rw [← Real.exp_add]; ring_nf
  have hmul : Real.exp x * Real.exp (-x) = 1 := by
    rw [← Real.exp_add]; simp
  rw [Real.tanh_eq_sinh_div_cosh, Real.sinh_eq, Real.cosh_eq, h2]
  have hden : Real.exp x + Real.exp (-x) ≠ 0 := by positivity
  have hden2 : Real.exp x * Real.exp x + 1 ≠ 0 := by positivity
  field_simp
  ring_nf
  nlinarith [hmul]

theorem tendsto_tanh_atTop : Tendsto Real.tanh atTop (nhds 1) := by
  have h1 : Tendsto (fun x : ℝ => Real.exp (2 * x) + 1) atTop atTop := by
    refine tendsto_atTop_add_const_right atTop 1 ?_
    exact Real.tendsto_exp_atTop.comp (tendsto_id.const_mul_atTop two_pos)
  have h2 : Tendsto (fun x : ℝ => 2 / (Real.exp (2 * x) + 1)) atTop (nhds 0) :=
    Filter.Tendsto.const_div_atTop h1 2
  have h3 : Tendsto (fun x : ℝ => 1 - 2 / (Real.exp (2 * x) + 1)) atTop (nhds 1) := by
    simpa using tendsto_const_nhds.sub h2
  exact h3.congr fun x => (tanh_eq_one_sub x).symm

theorem tendsto_tanh_atBot : Tendsto Real.tanh atBot (nhds (-1)) := by
  have h : Tendsto (fun x : ℝ => Real.tanh (-x)) atBot (nhds 1) :=
    tendsto_tanh_atTop.comp tendsto_neg_atBot_atTop
  have h2 : Tendsto (fun x : ℝ => -Real.tanh (-x)) atBot (nhds (-1)) := by
    simpa using h.neg
  exact h2.congr fun x => by rw [Real.tanh_neg, neg_neg]

end TanhFacts

/-- C1: `predict_lf0_with_residual` returns corrected pitch equal to
`((input[.., in_lf0_idx] * (in_lf0_max - in_lf0_min) + in_lf0_min)
  + max_ratio * tanh (raw_output[.., out_lf0_idx]) - out_lf0_mean) / out_lf0_scale`
with `max_ratio = residual_f0_max_cent * ln 2 / 1200`; the de-normalization is
linear, the residual is added in the natural-log-frequency domain, and on a
4-axis per-mixture-component output the identical transform is applied at
every component index. -/
theorem C1_predict_lf0_formula
    (in_feats out_feats : ℕ → ℕ → List ℝ) (out_feats4 : ℕ → ℕ → ℕ → List ℝ)
    (in_lf0_idx : ℕ) (in_lf0_min in_lf0_max : ℝ)
    (out_lf0_idx : ℕ) (out_lf0_mean out_lf0_scale : ℝ)
    (residual_f0_max_cent : ℝ) (b t g : ℕ) :
    (predict_lf0_with_residual in_feats out_feats in_lf0_idx in_lf0_min in_lf0_max
        out_lf0_idx out_lf0_mean out_lf0_scale residual_f0_max_cent).1 b t =
      (((in_feats b t).getD in_lf0_idx 0 * (in_lf0_max - in_lf0_min) + in_lf0_min)
        + residual_f0_max_cent * Real.log 2 / 1200
          * Real.tanh ((out_feats b t).getD out_lf0_idx 0)
        - out_lf0_mean) / out_lf0_scale
    ∧ (predict_lf0_with_residual_mdn in_feats out_feats4 in_lf0_idx in_lf0_min in_lf0_max
        out_lf0_idx out_lf0_mean out_lf0_scale residual_f0_max_cent).1 b t g =
      (((in_feats b t).getD in_lf0_idx 0 * (in_lf0_max - in_lf0_min) + in_lf0_min)
        + residual_f0_max_cent * Real.log 2 / 1200
          * Real.tanh ((out_feats4 b t g).getD out_lf0_idx 0)
        - out_lf0_mean) / out_lf0_scale := by
  exact ⟨rfl, rfl⟩

/-- C2: with `residual_f0_max_cent = 600`, a raw residual of 0 gives a zero
bounded residual and a corrected pitch equal to the linearly de-normalized
score pitch renormalized by `out_lf0_mean`/`out_lf0_scale`; for every finite
raw value the bounded residual never exceeds `600 * ln 2 / 1200` in magnitude;
and along any family of output frames whose raw residual at `out_lf0_idx` is
`r`, the bounded residual tends to the positive and negative limit as
`r → plus-or-minus infinity`. -/
theorem C2_residual_bound_saturation
    (x : List ℝ) (p : ResF0Params) (outFrames : ℝ → List ℝ)
    (hres : ∀ r, (outFrames r).getD p.out_lf0_idx 0 = r) :
    (∀ mu : List ℝ, mu.getD p.out_lf0_idx 0 = 0 →
      (predict_lf0_frame x mu p.in_lf0_idx p.in_lf0_min p.in_lf0_max
          p.out_lf0_idx p.out_lf0_mean p.out_lf0_scale 600).2 = 0 ∧
      (predict_lf0_frame x mu p.in_lf0_idx p.in_lf0_min p.in_lf0_max
          p.out_lf0_idx p.out_lf0_mean p.out_lf0_scale 600).1 =
        ((x.getD p.in_lf0_idx 0 * (p.in_lf0_max - p.in_lf0_min) + p.in_lf0_min)
          - p.out_lf0_mean) / p.out_lf0_scale) ∧
    (∀ mu : List ℝ,
      |(predict_lf0_frame x mu p.in_lf0_idx p.in_lf0_min p.in_lf0_max
          p.out_lf0_idx p.out_lf0_mean p.out_lf0_scale 600).2| ≤ 600 * Real.log 2 / 1200) ∧
    Filter.Tendsto (fun r => (predict_lf0_frame x (outFrames r) p.in_lf0_idx p.in_lf0_min
        p.in_lf0_max p.out_lf0_idx p.out_lf0_mean p.out_lf0_scale 600).2)
      Filter.atTop (nhds (600 * Real.log 2 / 1200)) ∧
    Filter.Tendsto (fun r => (predict_lf0_frame x (outFrames r) p.in_lf0_idx p.in_lf0_min
        p.in_lf0_max p.out_lf0_idx p.out_lf0_mean p.out_lf0_scale 600).2)
      Filter.atBot (nhds (-(600 * Real.log 2 / 1200))) := by
  have hratio : (0 : ℝ) ≤ 600 * Real.log 2 / 1200 := by
    have := Real.log_nonneg (by norm_num : (1 : ℝ) ≤ 2)
    positivity
  refine ⟨?_, ?_, ?_, ?_⟩
  · intro mu hmu
    constructor
    · show 600 * Real.log 2 / 1200 * Real.tanh (mu.getD p.out_lf0_idx 0) = 0
      rw [hmu, Real.tanh_zero, mul_zero]
    · show (x.getD p.in_lf0_idx 0 * (p.in_lf0_max - p.in_lf0_min) + p.in_lf0_min
          + 600 * Real.log 2 / 1200 * Real.tanh (mu.getD p.out_lf0_idx 0)
          - p.out_lf0_mean) / p.out_lf0_scale = _
      rw [hmu, Real.tanh_zero, mul_zero, add_zero]
  · intro mu
    show |600 * Real.log 2 / 1200 * Real.tanh (mu.getD p.out_lf0_idx 0)| ≤ _
    rw [abs_mul, abs_of_nonneg hratio]
    have h1 := (abs_tanh_lt_one (mu.getD p.out_lf0_idx 0)).le
    calc 600 * Real.log 2 / 1200 * |Real.tanh (mu.getD p.out_lf0_idx 0)|
        ≤ 600 * Real.log 2 / 1200 * 1 := by
          exact mul_le_mul_of_nonneg_left h1 hratio
      _ = 600 * Real.log 2 / 1200 := mul_one _
  · have h : Filter.Tendsto (fun r : ℝ => 600 * Real.log 2 / 1200 * Real.tanh r)
        Filter.atTop (nhds (600 * Real.log 2 / 1200)) := by
      simpa using tendsto_tanh_atTop.const_mul (600 * Real.log 2 / 1200)
    refine h.congr fun r => ?_
    show 600 * Real.log 2 / 1200 * Real.tanh r
        = 600 * Real.log 2 / 1200 * Real.tanh ((outFrames r).getD p.out_lf0_idx 0)
    rw [hres r]
  · have h : Filter.Tendsto (fun r : ℝ => 600 * Real.log 2 / 1200 * Real.tanh r)
        Filter.atBot (nhds (-(600 * Real.log 2 / 1200))) := by
      have := tendsto_tanh_atBot.const_mul (600 * Real.log 2 / 1200)
      simpa using this
    refine h.congr fun r => ?_
    show 600 * Real.log 2 / 1200 * Real.tanh r
        = 600 * Real.log 2 / 1200 * Real.tanh ((outFrames r).getD p.out_lf0_idx 0)
    rw [hres r]

/-- Witness for C2 at a concrete configuration. -/
theorem C2_residual_bound_saturation_witness :
    (∀ r : ℝ, (([r] : List ℝ).getD (0 : ℕ) 0 = r)) ∧
    ((∀ mu : List ℝ, mu.getD (0 : ℕ) 0 = 0 →
      (predict_lf0_frame [(0 : ℝ)] mu 0 0 1 0 0 1 600).2 = 0 ∧
      (predict_lf0_frame [(0 : ℝ)] mu 0 0 1 0 0 1 600).1 =
        ((([(0 : ℝ)] : List ℝ).getD (0 : ℕ) 0 * ((1 : ℝ) - 0) + 0) - 0) / 1) ∧
    (∀ mu : List ℝ,
      |(predict_lf0_frame [(0 : ℝ)] mu 0 0 1 0 0 1 600).2| ≤ 600 * Real.log 2 / 1200) ∧
    Filter.Tendsto (fun r => (predict_lf0_frame [(0 : ℝ)] [r] 0 0 1 0 0 1 600).2)
      Filter.atTop (nhds (600 * Real.log 2 / 1200)) ∧
    Filter.Tendsto (fun r => (predict_lf0_frame [(0 : ℝ)] [r] 0 0 1 0 0 1 600).2)
      Filter.atBot (nhds (-(600 * Real.log 2 / 1200)))) :=
  ⟨fun _ => rfl,
   C2_residual_bound_saturation [(0 : ℝ)] ⟨0, 0, 1, 0, 0, 1⟩ (fun r => [r]) (fun _ => rfl)⟩

section ListHelpers

theorem getD_set_ne {α : Type*} (l : List α) (i j : ℕ) (a d : α) (h : i ≠ j) :
    (l.set i a).getD j d = l.getD j d := by
  simp [List.getD_eq_getElem?_getD, List.getElem?_set_ne h]

theorem getD_set_self {α : Type*} (l : List α) (i : ℕ) (a d : α) (h : i < l.length) :
    (l.set i a).getD i d = a := by
  simp [List.getD_eq_getElem?_getD, List.getElem?_set_eq_of_lt a h]

theorem getD_map_of_lt {α β : Type*} (F : α → β) (l : List α) (g : ℕ) (d : β) (dd : α)
    (h : g < l.length) : (l.map F).getD g d = F (l.getD g dd) := by
  rw [List.getD_eq_getElem _ _ (by simpa using h), List.getD_eq_getElem _ _ h,
    List.getElem_map]

theorem zipWith_map_self {α β γ : Type*} (G : α → β → γ) (F : α → β) :
    ∀ l : List α, List.zipWith G l (l.map F) = l.map fun a => G a (F a)
  | [] => rfl
  | a :: t => by
    simp only [List.map_cons, List.zipWith_cons_cons, zipWith_map_self G F t]

end ListHelpers

/-- C3: the forward step of the residual-F0 predictors (deterministic branch of
`ResF0Conv1dResnet` and `ResSkipF0FFConvLSTM`, and the MDN injection) returns a
corrected output of the same shape as the raw network output, differing from it
only at column `out_lf0_idx`, where the corrected renormalized pitch replaces
the raw value; in the MDN case this holds per mixture component. -/
theorem C3_resF0_forward_column_effect (p : ResF0Params)
    (net nets : List ℝ → List ℝ) (netm : List ℝ → List (List ℝ)) (x : List ℝ) :
    ((ResF0Conv1dResnet.forward ⟨p, net⟩ x).1.length = (net x).length
      ∧ (∀ c : ℕ, c ≠ p.out_lf0_idx →
          (ResF0Conv1dResnet.forward ⟨p, net⟩ x).1.getD c 0 = (net x).getD c 0)
      ∧ (p.out_lf0_idx < (net x).length →
          (ResF0Conv1dResnet.forward ⟨p, net⟩ x).1.getD p.out_lf0_idx 0 =
            (predict_lf0_frame x (net x) p.in_lf0_idx p.in_lf0_min p.in_lf0_max
              p.out_lf0_idx p.out_lf0_mean p.out_lf0_scale 600).1))
    ∧ ((ResSkipF0FFConvLSTM.forward ⟨p, nets⟩ x).1.length = (nets x).length
      ∧ (∀ c : ℕ, c ≠ p.out_lf0_idx →
          (ResSkipF0FFConvLSTM.forward ⟨p, nets⟩ x).1.getD c 0 = (nets x).getD c 0)
      ∧ (p.out_lf0_idx < (nets x).length →
          (ResSkipF0FFConvLSTM.forward ⟨p, nets⟩ x).1.getD p.out_lf0_idx 0 =
            (predict_lf0_frame x (nets x) p.in_lf0_idx p.in_lf0_min p.in_lf0_max
              p.out_lf0_idx p.out_lf0_mean p.out_lf0_scale 600).1))
    ∧ ((resF0_forward_frame_mdn p netm x).1 =
        (netm x).map (fun comp => comp.set p.out_lf0_idx
          (predict_lf0_frame x comp p.in_lf0_idx p.in_lf0_min p.in_lf0_max
            p.out_lf0_idx p.out_lf0_mean p.out_lf0_scale 600).1)
      ∧ (resF0_forward_frame_mdn p netm x).1.length = (netm x).length
      ∧ (∀ g : ℕ, g < (netm x).length →
          ((resF0_forward_frame_mdn p netm x).1.getD g []).length
            = ((netm x).getD g []).length
          ∧ (∀ c : ℕ, c ≠ p.out_lf0_idx →
              ((resF0_forward_frame_mdn p netm x).1.getD g []).getD c 0
                = ((netm x).getD g []).getD c 0)
          ∧ (p.out_lf0_idx < ((netm x).getD g []).length →
              ((resF0_forward_frame_mdn p netm x).1.getD g []).getD p.out_lf0_idx 0 =
                (predict_lf0_frame x ((netm x).getD g []) p.in_lf0_idx p.in_lf0_min
                  p.in_lf0_max p.out_lf0_idx p.out_lf0_mean p.out_lf0_scale 600).1))) := by
  have hdet : ∀ f : List ℝ → List ℝ,
      (resF0_forward_frame p f x).1.length = (f x).length
      ∧ (∀ c : ℕ, c ≠ p.out_lf0_idx →
          (resF0_forward_frame p f x).1.getD c 0 = (f x).getD c 0)
      ∧ (p.out_lf0_idx < (f x).length →
          (resF0_forward_frame p f x).1.getD p.out_lf0_idx 0 =
            (predict_lf0_frame x (f x) p.in_lf0_idx p.in_lf0_min p.in_lf0_max
              p.out_lf0_idx p.out_lf0_mean p.out_lf0_scale 600).1) := by
    intro f
    refine ⟨List.length_set .., ?_, ?_⟩
    · intro c hc
      exact getD_set_ne (f x) p.out_lf0_idx c _ 0 (fun h => hc h.symm)
    · intro hlt
      exact getD_set_self (f x) p.out_lf0_idx _ 0 hlt
  have hmap : (resF0_forward_frame_mdn p netm x).1 =
      (netm x).map (fun comp => comp.set p.out_lf0_idx
        (predict_lf0_frame x comp p.in_lf0_idx p.in_lf0_min p.in_lf0_max
          p.out_lf0_idx p.out_lf0_mean p.out_lf0_scale 600).1) := by
    show List.zipWith _ (netm x) ((netm x).map _) = _
    rw [zipWith_map_self]
  refine ⟨hdet net, hdet nets, hmap, ?_, ?_⟩
  · rw [hmap, List.length_map]
  · intro g hg
    have hcomp : (resF0_forward_frame_mdn p netm x).1.getD g [] =
        ((netm x).getD g []).set p.out_lf0_idx
          (predict_lf0_frame x ((netm x).getD g []) p.in_lf0_idx p.in_lf0_min
            p.in_lf0_max p.out_lf0_idx p.out_lf0_mean p.out_lf0_scale 600).1 := by
      rw [hmap]
      exact getD_map_of_lt _ (netm x) g [] [] hg
    refine ⟨?_, ?_, ?_⟩
    · rw [hcomp, List.length_set]
    · intro c hc
      rw [hcomp]
      exact getD_set_ne _ p.out_lf0_idx c _ 0 (fun h => hc h.symm)
    · intro hlt
      rw [hcomp]
      exact getD_set_self _ p.out_lf0_idx _ 0 hlt

/-- Witness for C3: a concrete residual-F0 model with `out_lf0_idx = 1` and raw
output `[5, 7]`; the corrected pitch is written at column 1. -/
theorem C3_resF0_forward_column_effect_witness :
    ((0 : ℕ) ≠ (1 : ℕ) ∧ (1 : ℕ) < 2) ∧
    (ResF0Conv1dResnet.forward ⟨⟨0, 0, 1, 1, 0, 1⟩, fun _ => [(5 : ℝ), 7]⟩ []).1.getD 0 0
      = ([(5 : ℝ), 7].getD 0 0) ∧
    (ResF0Conv1dResnet.forward ⟨⟨0, 0, 1, 1, 0, 1⟩, fun _ => [(5 : ℝ), 7]⟩ []).1.getD 1 0
      = (predict_lf0_frame [] [(5 : ℝ), 7] 0 0 1 1 0 1 600).1 := by
  refine ⟨⟨by norm_num, by norm_num⟩, ?_, ?_⟩
  · exact (C3_resF0_forward_column_effect ⟨0, 0, 1, 1, 0, 1⟩ (fun _ => [(5 : ℝ), 7])
      (fun _ => [(5 : ℝ), 7]) (fun _ => [[(5 : ℝ), 7]]) []).1.2.1 0 (by norm_num)
  · exact (C3_resF0_forward_column_effect ⟨0, 0, 1, 1, 0, 1⟩ (fun _ => [(5 : ℝ), 7])
      (fun _ => [(5 : ℝ), 7]) (fun _ => [[(5 : ℝ), 7]]) []).1.2.2 (by norm_num)

theorem checkStreamDim_ok_iff (o : Option ℕ) (s : List ℕ) (msg : String) :
    checkStreamDim o s msg = Except.ok () ↔ ∀ d, o = some d → d = s.sum := by
  cases o with
  | none => simp [checkStreamDim]
  | some d => by_cases h : d = s.sum <;> simp [checkStreamDim, h]

theorem multistream_init_checks_ok_iff (e : Option ℕ) (es : List ℕ)
    (p : Option ℕ) (ps : List ℕ) (t : Option ℕ) (ts : List ℕ) :
    multistream_init_checks e es p ps t ts = Except.ok () ↔
      ((∀ d, e = some d → d = es.sum) ∧ (∀ d, p = some d → d = ps.sum)
        ∧ (∀ d, t = some d → d = ts.sum)) := by
  unfold multistream_init_checks
  rcases h1 : checkStreamDim e es
      "Energy model output dimension is not consistent with the stream sizes" with m1 | u1
  · constructor
    · intro h; exact absurd h (by simp)
    · intro ⟨he, _, _⟩
      rw [← checkStreamDim_ok_iff e es
        "Energy model output dimension is not consistent with the stream sizes"] at he
      rw [h1] at he; exact absurd he (by simp)
  · have he := (checkStreamDim_ok_iff e es _).1 (by cases u1; exact h1)
    rcases h2 : checkStreamDim p ps
        "Pitch model output dimension is not consistent with the stream sizes" with m2 | u2
    · constructor
      · intro h; exact absurd h (by simp)
      · intro ⟨_, hp, _⟩
        rw [← checkStreamDim_ok_iff p ps
          "Pitch model output dimension is not consistent with the stream sizes"] at hp
        rw [h2] at hp; exact absurd hp (by simp)
    · have hp := (checkStreamDim_ok_iff p ps _).1 (by cases u2; exact h2)
      rw [checkStreamDim_ok_iff t ts
        "Timbre model output dimension is not consistent with the stream sizes"]
      constructor
      · intro ht; exact ⟨he, hp, ht⟩
      · intro ⟨_, _, ht⟩; exact ht

/-- C5: `_set_lf0_params` overwrites the pitch model's `in_lf0_idx`,
`in_lf0_min`, `in_lf0_max`, `out_lf0_mean`, `out_lf0_scale` with the composer's
own values, never its `out_lf0_idx`; and both `forward` and `inference` run
`_set_lf0_params` before the pitch predictor is invoked (the body after the
propagation is `forward_post`). -/
theorem C5_lf0_param_propagation (m : MultistreamParametricModel) (x : List ℝ) :
    (m._set_lf0_params).pitch_params.in_lf0_idx = m.in_lf0_idx
    ∧ (m._set_lf0_params).pitch_params.in_lf0_min = m.in_lf0_min
    ∧ (m._set_lf0_params).pitch_params.in_lf0_max = m.in_lf0_max
    ∧ (m._set_lf0_params).pitch_params.out_lf0_mean = m.out_lf0_mean
    ∧ (m._set_lf0_params).pitch_params.out_lf0_scale = m.out_lf0_scale
    ∧ (m._set_lf0_params).pitch_params.out_lf0_idx = m.pitch_params.out_lf0_idx
    ∧ m.forward x = (m._set_lf0_params).forward_post x
    ∧ m.inference x = ((m._set_lf0_params).forward_post x).map Prod.fst :=
  ⟨rfl, rfl, rfl, rfl, rfl, rfl, rfl, rfl⟩

/-- C6: any sub-predictor declaring an output width inconsistent with the sum
of its stream sizes makes the constructor raise (no object is built), and with
no mismatch the checks pass. -/
theorem C6_layout_mismatch_raises (e : Option ℕ) (es : List ℕ)
    (p : Option ℕ) (ps : List ℕ) (t : Option ℕ) (ts : List ℕ) :
    (((∃ d, e = some d ∧ d ≠ es.sum) ∨ (∃ d, p = some d ∧ d ≠ ps.sum)
        ∨ (∃ d, t = some d ∧ d ≠ ts.sum)) →
      ∃ msg, multistream_init_checks e es p ps t ts = Except.error msg)
    ∧ ((∀ d, e = some d → d = es.sum) → (∀ d, p = some d → d = ps.sum) →
        (∀ d, t = some d → d = ts.sum) →
        multistream_init_checks e es p ps t ts = Except.ok ()) := by
  constructor
  · intro h
    cases hC : multistream_init_checks e es p ps t ts with
    | error msg => exact ⟨msg, rfl⟩
    | ok u =>
      cases u
      have hok := (multistream_init_checks_ok_iff e es p ps t ts).1 hC
      rcases h with ⟨d, hd, hne⟩ | ⟨d, hd, hne⟩ | ⟨d, hd, hne⟩
      · exact absurd (hok.1 d hd) hne
      · exact absurd (hok.2.1 d hd) hne
      · exact absurd (hok.2.2 d hd) hne
  · intro h1 h2 h3
    exact (multistream_init_checks_ok_iff e es p ps t ts).2 ⟨h1, h2, h3⟩

/-- Witness for C6 at the spec example: a declared `out_dim = 199` against a
stream layout summing to 200 raises. -/
theorem C6_layout_mismatch_raises_witness :
    (∃ d, (some 199 : Option ℕ) = some d ∧ d ≠ ([180, 20] : List ℕ).sum) ∧
    ∃ msg, multistream_init_checks (some 199) [180, 20] none [] none []
      = Except.error msg :=
  ⟨⟨199, rfl, by norm_num⟩,
   (C6_layout_mismatch_raises (some 199) [180, 20] none [] none []).1
     (Or.inl ⟨199, rfl, by norm_num⟩)⟩

/-- C10: `MultistreamParametricModel.inference` returns exactly the first
component of `forward`, discarding only the pitch residual. -/
theorem C10_inference_is_forward_fst (m : MultistreamParametricModel) (x : List ℝ)
    (out : List ℝ) (res : ℝ) (h : m.forward x = some (out, res)) :
    m.inference x = some out := by
  rw [MultistreamParametricModel.inference, h]
  rfl

/-- C9 counterexample: `Conv1dResnetSAR` is configured deterministic
(`use_mdn = False` always), yet its `inference` applies the shallow-AR
synthesis filter and so differs from `forward` on a concrete instance. -/
theorem C9_counterexample_sar_inference_ne_forward :
    csarExample.inference () ≠ csarExample.forward () := by
  intro h
  have h1 : csarExample.inference () = [[(1 : ℚ), -1]] := by
    show _shallow_ar_inference [[(1 : ℚ), 0]] [1] [[[1, 1]]] = [[1, -1]]
    norm_num [_shallow_ar_inference, split_streams, lfilter, lfilterGo, impulse, dotRev]
  have h2 : csarExample.forward () = [[(1 : ℚ), 0]] := rfl
  rw [h1, h2] at h
  simp at h

/-- C9 (amended): for the deterministic predictors of this module other than
the shallow-AR variants — `Conv1dResnet`, `ResF0Conv1dResnet`,
`ResSkipF0FFConvLSTM`, `ResF0VariancePredictor`,
`MultistreamParametricModel` — `inference` returns exactly the trajectory of
`forward` (for residual-F0 models, its first component) with no further
post-processing; the SAR variants instead run the synthesis filter. -/
theorem C9_deterministic_inference_eq_forward {α : Type*} [Field α] {X : Type*}
    (mc : Conv1dResnet α X) (xc : X) (m1 : ResF0Conv1dResnet)
    (m2 : ResSkipF0FFConvLSTM) (m3 : ResF0VariancePredictor)
    (mm : MultistreamParametricModel) (x : List ℝ)
    (ms : Conv1dResnetSAR α X) :
    mc.inference xc = mc.forward xc
    ∧ m1.inference x = (m1.forward x).1
    ∧ m2.inference x = (m2.forward x).1
    ∧ m3.inference x = (m3.forward x).1
    ∧ mm.inference x = (mm.forward x).map Prod.fst
    ∧ ms.inference xc = _shallow_ar_inference (ms.net xc) ms.stream_sizes ms.analysis_filts :=
  ⟨rfl, rfl, rfl, rfl, rfl, rfl⟩

section ShallowARLemmas

variable {α : Type*} [Field α]

theorem shallow_ar_inference_cons (out : List (List α)) (s : ℕ) (sizes : List ℕ)
    (f : List (List α)) (filts : List (List (List α))) :
    _shallow_ar_inference out (s :: sizes) (f :: filts) =
      List.zipWith (fun sig taps =>
          lfilter taps.reverse (impulse taps.reverse.length) sig) (out.take s) f
        ++ _shallow_ar_inference (out.drop s) sizes filts := by
  simp only [_shallow_ar_inference, split_streams, List.zipWith_cons_cons, List.flatten_cons]

theorem preprocess_target_cons (y : List (List α)) (s : ℕ) (sizes : List ℕ)
    (f : List (List α)) (filts : List (List (List α))) :
    preprocess_target y (s :: sizes) (f :: filts) =
      List.zipWith (fun sig taps => trTimeInvFIRFilter taps sig) (y.take s) f
        ++ preprocess_target (y.drop s) sizes filts := by
  simp only [preprocess_target, split_streams, List.zipWith_cons_cons, List.flatten_cons]

omit [Field α] in
theorem flatten_length_of_forall₂ (filts : List (List (List α))) (sizes : List ℕ)
    (hf : List.Forall₂ (fun f s => f.length = s) filts sizes) :
    filts.flatten.length = sizes.sum := by
  induction hf with
  | nil => rfl
  | cons h₁ _ ih => simp [h₁, ih]

/-- The SAR synthesis acts channel-by-channel: splitting into streams, running
the per-dimension IIR filters, and concatenating equals zipping the flat
channel list with the flattened coefficient table. -/
theorem shallow_ar_inference_flat (sizes : List ℕ) (filts : List (List (List α)))
    (out : List (List α))
    (hf : List.Forall₂ (fun f s => f.length = s) filts sizes)
    (hsum : out.length = sizes.sum) :
    _shallow_ar_inference out sizes filts
      = List.zipWith (fun sig taps =>
          lfilter taps.reverse (impulse taps.reverse.length) sig) out filts.flatten := by
  induction hf generalizing out with
  | nil =>
    simp only [_shallow_ar_inference, split_streams, List.zipWith_nil_right,
      List.flatten_nil, List.zipWith_nil_left, List.flatten]
  | @cons a b l₁ l₂ h₁ _h₂ ih =>
    have hble : b ≤ out.length := by
      rw [hsum, List.sum_cons]; exact Nat.le_add_right b l₂.sum
    have hdrop : (out.drop b).length = l₂.sum := by
      rw [List.length_drop, hsum, List.sum_cons]; omega
    have hlen : (out.take b).length = a.length := by
      rw [List.length_take, h₁]; exact Nat.min_eq_left hble
    calc _shallow_ar_inference out (b :: l₂) (a :: l₁)
        = List.zipWith (fun sig taps =>
              lfilter taps.reverse (impulse taps.reverse.length) sig) (out.take b) a
            ++ List.zipWith (fun sig taps =>
              lfilter taps.reverse (impulse taps.reverse.length) sig) (out.drop b) l₁.flatten := by
          rw [shallow_ar_inference_cons, ih (out.drop b) hdrop]
      _ = List.zipWith (fun sig taps =>
              lfilter taps.reverse (impulse taps.reverse.length) sig)
            (out.take b ++ out.drop b) (a ++ l₁.flatten) :=
          (List.zipWith_append _ _ _ _ _ hlen).symm
      _ = List.zipWith (fun sig taps =>
              lfilter taps.reverse (impulse taps.reverse.length) sig) out (a :: l₁).flatten := by
          rw [List.take_append_drop, List.flatten_cons]

end ShallowARLemmas

/-- C7: `_shallow_ar_inference` splits its input by the configured stream
sizes; each stream's each scalar dimension is filtered by an IIR whose
feedback coefficients are that dimension's stored analysis taps time-reversed
and whose numerator is a unit impulse; the per-stream results are concatenated
back in stream-layout order (equivalently, channel `c` of the result is the
IIR applied to channel `c` of the input with the `c`-th flattened tap list),
and the output has the same shape as the input. -/
theorem C7_shallow_ar_structure {α : Type*} [Field α] (sizes : List ℕ)
    (filts : List (List (List α))) (out : List (List α))
    (hf : List.Forall₂ (fun f s => f.length = s) filts sizes)
    (hsum : out.length = sizes.sum) :
    _shallow_ar_inference out sizes filts
      = List.zipWith (fun sig taps =>
          lfilter taps.reverse (impulse taps.reverse.length) sig) out filts.flatten
    ∧ (_shallow_ar_inference out sizes filts).length = out.length
    ∧ ∀ c : ℕ, ((_shallow_ar_inference out sizes filts).getD c []).length
        = (out.getD c []).length := by
  have heq := shallow_ar_inference_flat sizes filts out hf hsum
  have hflat : filts.flatten.length = sizes.sum := flatten_length_of_forall₂ filts sizes hf
  have hlen : (_shallow_ar_inference out sizes filts).length = out.length := by
    rw [heq, List.length_zipWith, hflat, ← hsum, Nat.min_self]
  refine ⟨heq, hlen, ?_⟩
  intro c
  rw [heq]
  have hzlen : (List.zipWith (fun sig taps =>
      lfilter taps.reverse (impulse taps.reverse.length) sig) out filts.flatten).length
      = out.length := by
    rw [List.length_zipWith, hflat, ← hsum, Nat.min_self]
  rcases Nat.lt_or_ge c out.length with hc | hc
  · have hc3 : c < (List.zipWith (fun sig taps =>
        lfilter taps.reverse (impulse taps.reverse.length) sig) out filts.flatten).length := by
      rw [hzlen]; exact hc
    rw [List.getD_eq_getElem _ _ hc3, List.getD_eq_getElem _ _ hc]
    simp only [List.getElem_zipWith, lfilter_length]
  · rw [List.getD_eq_default _ _ (by rw [hzlen]; exact hc), List.getD_eq_default _ _ hc]

/-- Witness for C7 over `ℚ`: two streams of widths 2 and 1. -/
theorem C7_shallow_ar_structure_witness :
    (List.Forall₂ (fun (f : List (List ℚ)) (s : ℕ) => f.length = s)
        [[[2], [1]], [[1]]] [2, 1]
      ∧ ([[1, 2], [3, 4], [5, 6]] : List (List ℚ)).length = ([2, 1] : List ℕ).sum)
    ∧ (_shallow_ar_inference ([[1, 2], [3, 4], [5, 6]] : List (List ℚ)) [2, 1]
          [[[2], [1]], [[1]]]
        = List.zipWith (fun sig taps =>
            lfilter taps.reverse (impulse taps.reverse.length) sig)
          [[1, 2], [3, 4], [5, 6]] ([[[2], [1]], [[1]]] : List (List (List ℚ))).flatten
      ∧ (_shallow_ar_inference ([[1, 2], [3, 4], [5, 6]] : List (List ℚ)) [2, 1]
          [[[2], [1]], [[1]]]).length = ([[1, 2], [3, 4], [5, 6]] : List (List ℚ)).length
      ∧ ∀ c : ℕ, ((_shallow_ar_inference ([[1, 2], [3, 4], [5, 6]] : List (List ℚ)) [2, 1]
          [[[2], [1]], [[1]]]).getD c []).length
            = (([[1, 2], [3, 4], [5, 6]] : List (List ℚ)).getD c []).length) := by
  have hf : List.Forall₂ (fun (f : List (List ℚ)) (s : ℕ) => f.length = s)
      [[[2], [1]], [[1]]] [2, 1] :=
    List.Forall₂.cons rfl (List.Forall₂.cons rfl List.Forall₂.nil)
  exact ⟨⟨hf, rfl⟩,
    C7_shallow_ar_structure [2, 1] [[[2], [1]], [[1]]] [[1, 2], [3, 4], [5, 6]] hf rfl⟩

section RoundTripLemmas

variable {α : Type*} [Field α]

/-- Per-stream round trip: synthesizing the analysed channels of one stream
with the same per-dimension taps recovers the channels. -/
theorem synth_analysis_stream :
    ∀ (ys f : List (List α)), ys.length ≤ f.length →
      (∀ taps ∈ f, taps ≠ [] ∧ taps.reverse.headD 0 ≠ 0) →
      List.zipWith (fun sig taps => lfilter taps.reverse (impulse taps.reverse.length) sig)
        (List.zipWith (fun sig taps => trTimeInvFIRFilter taps sig) ys f) f = ys := by
  intro ys
  induction ys with
  | nil => intro f _ _; simp
  | cons c cs ih =>
    intro f hlen htaps
    cases f with
    | nil => exact absurd hlen (by simp)
    | cons t ft =>
      simp only [List.zipWith_cons_cons]
      have h1 := htaps t (List.mem_cons_self t ft)
      rw [lfilter_trTimeInvFIRFilter t c h1.1 h1.2]
      rw [ih ft (by simpa using hlen) (fun taps h => htaps taps (List.mem_cons_of_mem t h))]

end RoundTripLemmas

/-- C8: applying the training-side analysis filter bank (`preprocess_target`)
and then the inference-side synthesis bank (`_shallow_ar_inference` with the
same stored coefficients) reproduces the original trajectory exactly (zero
initial conditions), whenever each tap list is nonempty with an invertible
leading synthesis coefficient. -/
theorem C8_analysis_synthesis_round_trip {α : Type*} [Field α] (sizes : List ℕ)
    (filts : List (List (List α))) (y : List (List α))
    (hf : List.Forall₂ (fun f s => f.length = s) filts sizes)
    (hsum : y.length = sizes.sum)
    (htaps : ∀ f ∈ filts, ∀ taps ∈ f, taps ≠ [] ∧ taps.reverse.headD 0 ≠ 0) :
    _shallow_ar_inference (preprocess_target y sizes filts) sizes filts = y := by
  induction hf generalizing y with
  | nil =>
    have hy : y = [] := by
      rw [List.sum_nil] at hsum
      exact List.length_eq_zero.1 hsum
    subst hy
    rfl
  | @cons a b l₁ l₂ h₁ _h₂ ih =>
    have hble : b ≤ y.length := by
      rw [hsum, List.sum_cons]; exact Nat.le_add_right b l₂.sum
    have htake : (y.take b).length = b := by
      rw [List.length_take]; exact Nat.min_eq_left hble
    have hAlen : (List.zipWith (fun sig taps => trTimeInvFIRFilter taps sig) (y.take b) a).length
        = b := by
      rw [List.length_zipWith, htake, h₁, Nat.min_self]
    rw [preprocess_target_cons, shallow_ar_inference_cons,
      List.take_left' hAlen, List.drop_left' hAlen]
    rw [synth_analysis_stream (y.take b) a (by rw [htake, h₁])
      (htaps a (List.mem_cons_self a l₁))]
    rw [ih (y.drop b) (by rw [List.length_drop, hsum, List.sum_cons]; omega)
      (fun f h => htaps f (List.mem_cons_of_mem a h))]
    exact List.take_append_drop b y

/-- Witness for C8 over `ℚ`: one stream, one channel, taps `[2, 1]`, signal
`[3, 5]`. -/
theorem C8_analysis_synthesis_round_trip_witness :
    (List.Forall₂ (fun (f : List (List ℚ)) (s : ℕ) => f.length = s) [[[2, 1]]] [1]
      ∧ ([[3, 5]] : List (List ℚ)).length = ([1] : List ℕ).sum
      ∧ (∀ f ∈ ([[[2, 1]]] : List (List (List ℚ))), ∀ taps ∈ f,
          taps ≠ [] ∧ taps.reverse.headD 0 ≠ 0))
    ∧ _shallow_ar_inference (preprocess_target ([[3, 5]] : List (List ℚ)) [1] [[[2, 1]]])
        [1] [[[2, 1]]] = [[3, 5]] := by
  have hf : List.Forall₂ (fun (f : List (List ℚ)) (s : ℕ) => f.length = s) [[[2, 1]]] [1] :=
    List.Forall₂.cons rfl List.Forall₂.nil
  have ht : ∀ f ∈ ([[[2, 1]]] : List (List (List ℚ))), ∀ taps ∈ f,
      taps ≠ [] ∧ taps.reverse.headD 0 ≠ 0 := by
    intro f hmem taps hmt
    simp only [List.mem_singleton] at hmem
    subst hmem
    simp only [List.mem_singleton] at hmt
    subst hmt
    constructor
    · simp
    · norm_num
  exact ⟨⟨hf, rfl, ht⟩,
    C8_analysis_synthesis_round_trip [1] [[[2, 1]]] [[3, 5]] hf rfl ht⟩

theorem getD_take {α : Type*} (l : List α) (n i : ℕ) (d : α) (h : i < n) :
    (l.take n).getD i d = l.getD i d := by
  rcases Nat.lt_or_ge i l.length with hi | hi
  · have h1 : i < (l.take n).length := by rw [List.length_take]; omega
    rw [List.getD_eq_getElem _ _ h1, List.getD_eq_getElem _ _ hi]
    exact List.getElem_take l
  · have h1 : (l.take n).length ≤ i := by rw [List.length_take]; omega
    rw [List.getD_eq_default _ _ h1, List.getD_eq_default _ _ hi]

/-- With stream sizes `[1]`, `[1, 1, 3]`, `[179, 15]` and predictor output
widths matching them, the composer body passes all shape checks, takes the
3-way pitch branch and produces the concatenation
`(erg ++ mgc) ++ lf0 ++ vuv ++ bap ++ vib`. -/
theorem forward_post_arity3 (m : MultistreamParametricModel) (x : List ℝ)
    (hes : m.energy_stream_sizes = [1])
    (hps : m.pitch_stream_sizes = [1, 1, 3])
    (hts : m.timbre_stream_sizes = [179, 15])
    (hE : (m.energy_model x).length = 1)
    (hP : (m.pitch_net x).length = 5)
    (hT : (m.timbre_model x).length = 194) :
    m.forward_post x = some
      ((m.energy_model x).take 1 ++ (m.timbre_model x).take 179
        ++ (resF0_forward_frame m.pitch_params m.pitch_net x).1.take 1
        ++ ((resF0_forward_frame m.pitch_params m.pitch_net x).1.drop 1).take 1
        ++ ((m.timbre_model x).drop 179).take 15
        ++ (((resF0_forward_frame m.pitch_params m.pitch_net x).1.drop 1).drop 1).take 3,
       (resF0_forward_frame m.pitch_params m.pitch_net x).2) := by
  rcases m with ⟨em, ess, pn, pp, pss, tm, tss, i1, r1, r2, i2, r3, r4⟩
  dsimp only at hes hps hts hE hP hT ⊢
  subst hes hps hts
  have h1 : split_streams_checked (em x) [1] = some (split_streams (em x) [1]) :=
    split_streams_checked_of_sum _ _ (by simp [hE])
  have h2 : split_streams_checked (resF0_forward_frame pp pn x).1 [1, 1, 3]
      = some (split_streams (resF0_forward_frame pp pn x).1 [1, 1, 3]) :=
    split_streams_checked_of_sum _ _ (by simp [resF0_forward_frame, hP])
  have h3 : split_streams_checked (tm x) [179, 15]
      = some (split_streams (tm x) [179, 15]) :=
    split_streams_checked_of_sum _ _ (by simp [hT])
  simp only [MultistreamParametricModel.forward_post, h1, h2, h3, split_streams]

/-- C4: the composer joins sub-streams in the fixed order
`[energy-prepended spectral, lf0, vuv, aperiodicity, (vib), (vib-flags)]` and
supports pitch stream arities 2, 3 and 4 only (any other arity raises, as does
a stream layout not summing to a predictor's output width); with energy width
1, timbre widths `[179, 15]` and pitch widths `[1, 1, 3]`, the output frame
has width 200 and column 180 holds the corrected renormalized log-F0. -/
theorem C4_multistream_composition (m : MultistreamParametricModel) (x : List ℝ)
    (hes : m.energy_stream_sizes = [1]) (hps : m.pitch_stream_sizes = [1, 1, 3])
    (hts : m.timbre_stream_sizes = [179, 15])
    (hE : (m.energy_model x).length = 1) (hP : (m.pitch_net x).length = 5)
    (hT : (m.timbre_model x).length = 194)
    (hidx : m.pitch_params.out_lf0_idx = 0) :
    (∀ (n : MultistreamParametricModel) (z : List ℝ),
        ¬(n.pitch_stream_sizes.length = 2 ∨ n.pitch_stream_sizes.length = 3
          ∨ n.pitch_stream_sizes.length = 4) → n.forward z = none)
    ∧ (∀ (n : MultistreamParametricModel) (z : List ℝ),
        (n.pitch_stream_sizes.length = 2 ∨ n.pitch_stream_sizes.length = 3
          ∨ n.pitch_stream_sizes.length = 4) →
        n.energy_stream_sizes ≠ [] → n.timbre_stream_sizes.length = 2 →
        (n.energy_model z).length = n.energy_stream_sizes.sum →
        (n.pitch_net z).length = n.pitch_stream_sizes.sum →
        (n.timbre_model z).length = n.timbre_stream_sizes.sum →
        (n.forward z).isSome)
    ∧ (∃ (corr : ℝ) (pout out : List ℝ) (res : ℝ),
        corr = ((x.getD m.in_lf0_idx 0 * (m.in_lf0_max - m.in_lf0_min) + m.in_lf0_min)
            + 600 * Real.log 2 / 1200 * Real.tanh ((m.pitch_net x).getD 0 0)
            - m.out_lf0_mean) / m.out_lf0_scale
        ∧ pout = (m.pitch_net x).set 0 corr
        ∧ m.forward x = some (out, res)
        ∧ out = (m.energy_model x).take 1 ++ (m.timbre_model x).take 179
            ++ pout.take 1 ++ (pout.drop 1).take 1
            ++ ((m.timbre_model x).drop 179).take 15 ++ ((pout.drop 1).drop 1).take 3
        ∧ out.length = 200
        ∧ out.getD 180 0 = corr
        ∧ res = 600 * Real.log 2 / 1200 * Real.tanh ((m.pitch_net x).getD 0 0)) := by
  refine ⟨?_, ?_, ?_⟩
  · intro n z harity
    show (n._set_lf0_params).forward_post z = none
    unfold MultistreamParametricModel.forward_post
    rcases hse : split_streams_checked ((n._set_lf0_params).energy_model z)
        (n._set_lf0_params).energy_stream_sizes with _ | ⟨_ | ⟨erg, etl⟩⟩
    · rfl
    · rfl
    · dsimp only
      rcases hpc : split_streams_checked
          (resF0_forward_frame (n._set_lf0_params).pitch_params
            (n._set_lf0_params).pitch_net z).1 (n._set_lf0_params).pitch_stream_sizes with
        _ | pparts
      · rfl
      · have hplen : pparts.length = n.pitch_stream_sizes.length :=
          split_streams_checked_length _ _ _ hpc
        rcases hst : split_streams_checked ((n._set_lf0_params).timbre_model z)
            (n._set_lf0_params).timbre_stream_sizes with
          _ | ⟨_ | ⟨mg, _ | ⟨bp, _ | ⟨c3, ctl⟩⟩⟩⟩
        · rfl
        · rfl
        · rfl
        · rcases pparts with _ | ⟨s1, _ | ⟨s2, _ | ⟨s3, _ | ⟨s4, _ | ⟨s5, stl⟩⟩⟩⟩⟩
          · rfl
          · rfl
          · exact absurd (Or.inl (show n.pitch_stream_sizes.length = 2 from hplen.symm))
              harity
          · exact absurd
              (Or.inr (Or.inl (show n.pitch_stream_sizes.length = 3 from hplen.symm)))
              harity
          · exact absurd
              (Or.inr (Or.inr (show n.pitch_stream_sizes.length = 4 from hplen.symm)))
              harity
          · rfl
        · rfl
  · intro n z harity hene htim hEc hPc hTc
    show ((n._set_lf0_params).forward_post z).isSome
    have h1 : split_streams_checked ((n._set_lf0_params).energy_model z)
        (n._set_lf0_params).energy_stream_sizes
        = some (split_streams ((n._set_lf0_params).energy_model z)
            (n._set_lf0_params).energy_stream_sizes) :=
      split_streams_checked_of_sum _ _ hEc.symm
    have hplnet : (resF0_forward_frame (n._set_lf0_params).pitch_params
        (n._set_lf0_params).pitch_net z).1.length
        = ((n._set_lf0_params).pitch_net z).length := by
      simp [resF0_forward_frame]
    have h2 : split_streams_checked
        (resF0_forward_frame (n._set_lf0_params).pitch_params
          (n._set_lf0_params).pitch_net z).1 (n._set_lf0_params).pitch_stream_sizes
        = some (split_streams
            (resF0_forward_frame (n._set_lf0_params).pitch_params
              (n._set_lf0_params).pitch_net z).1 (n._set_lf0_params).pitch_stream_sizes) :=
      split_streams_checked_of_sum _ _ (by rw [hplnet]; exact hPc.symm)
    have h3 : split_streams_checked ((n._set_lf0_params).timbre_model z)
        (n._set_lf0_params).timbre_stream_sizes
        = some (split_streams ((n._set_lf0_params).timbre_model z)
            (n._set_lf0_params).timbre_stream_sizes) :=
      split_streams_checked_of_sum _ _ hTc.symm
    have hel := split_streams_length ((n._set_lf0_params).energy_model z)
      (n._set_lf0_params).energy_stream_sizes
    have htl := split_streams_length ((n._set_lf0_params).timbre_model z)
      (n._set_lf0_params).timbre_stream_sizes
    have hpl := split_streams_length
      (resF0_forward_frame (n._set_lf0_params).pitch_params (n._set_lf0_params).pitch_net z).1
      (n._set_lf0_params).pitch_stream_sizes
    unfold MultistreamParametricModel.forward_post
    rw [h1]
    rcases hse : split_streams ((n._set_lf0_params).energy_model z)
        (n._set_lf0_params).energy_stream_sizes with _ | ⟨erg, etl⟩
    · exfalso
      rw [hse] at hel
      have h0 : n.energy_stream_sizes.length = 0 := hel.symm
      exact hene (List.length_eq_zero.1 h0)
    · dsimp only
      rw [h2, h3]
      rcases hst : split_streams ((n._set_lf0_params).timbre_model z)
          (n._set_lf0_params).timbre_stream_sizes with _ | ⟨mg, _ | ⟨bp, _ | ⟨c3, ctl⟩⟩⟩
      · exfalso; rw [hst] at htl
        have h0 : n.timbre_stream_sizes.length = 0 := htl.symm
        omega
      · exfalso; rw [hst] at htl
        have h1t : n.timbre_stream_sizes.length = 1 := htl.symm
        omega
      · rcases hpp : split_streams
            (resF0_forward_frame (n._set_lf0_params).pitch_params
              (n._set_lf0_params).pitch_net z).1 (n._set_lf0_params).pitch_stream_sizes with
          _ | ⟨s1, _ | ⟨s2, _ | ⟨s3, _ | ⟨s4, _ | ⟨s5, stl⟩⟩⟩⟩⟩
        · exfalso; rw [hpp] at hpl
          have h0 : n.pitch_stream_sizes.length = 0 := hpl.symm
          rcases harity with h | h | h <;> omega
        · exfalso; rw [hpp] at hpl
          have h1p : n.pitch_stream_sizes.length = 1 := hpl.symm
          rcases harity with h | h | h <;> omega
        · exact rfl
        · exact rfl
        · exact rfl
        · exfalso; rw [hpp] at hpl
          have h5 : n.pitch_stream_sizes.length = stl.length + 5 := hpl.symm
          rcases harity with h | h | h <;> omega
      · exfalso; rw [hst] at htl
        have h3t : n.timbre_stream_sizes.length = ctl.length + 3 := htl.symm
        omega
  · have h3 := forward_post_arity3 (m._set_lf0_params) x hes hps hts hE hP hT
    have hqe : (m._set_lf0_params).energy_model = m.energy_model := rfl
    have hqt : (m._set_lf0_params).timbre_model = m.timbre_model := rfl
    have hqn : (m._set_lf0_params).pitch_net = m.pitch_net := rfl
    rw [hqe, hqt, hqn] at h3
    have hpout : (resF0_forward_frame (m._set_lf0_params).pitch_params m.pitch_net x).1
        = (m.pitch_net x).set 0
          (((x.getD m.in_lf0_idx 0 * (m.in_lf0_max - m.in_lf0_min) + m.in_lf0_min)
            + 600 * Real.log 2 / 1200 * Real.tanh ((m.pitch_net x).getD 0 0)
            - m.out_lf0_mean) / m.out_lf0_scale) := by
      simp only [resF0_forward_frame, predict_lf0_frame,
        MultistreamParametricModel._set_lf0_params, hidx]
    have hres2 : (resF0_forward_frame (m._set_lf0_params).pitch_params m.pitch_net x).2
        = 600 * Real.log 2 / 1200 * Real.tanh ((m.pitch_net x).getD 0 0) := by
      simp only [resF0_forward_frame, predict_lf0_frame,
        MultistreamParametricModel._set_lf0_params, hidx]
    rw [hpout, hres2] at h3
    refine ⟨_, _, _, _, rfl, rfl, h3, rfl, ?_, ?_, rfl⟩
    · simp only [List.length_append, List.length_take, List.length_drop, List.length_set,
        hE, hP, hT]
      omega
    · have hPl : ((m.pitch_net x).set 0
          (((x.getD m.in_lf0_idx 0 * (m.in_lf0_max - m.in_lf0_min) + m.in_lf0_min)
            + 600 * Real.log 2 / 1200 * Real.tanh ((m.pitch_net x).getD 0 0)
            - m.out_lf0_mean) / m.out_lf0_scale)).length = 5 := by
        rw [List.length_set, hP]
      rw [List.getD_append _ _ _ _ (by
        simp only [List.length_append, List.length_take, List.length_drop, hE, hT, hPl]
        omega)]
      rw [List.getD_append _ _ _ _ (by
        simp only [List.length_append, List.length_take, List.length_drop, hE, hT, hPl]
        omega)]
      rw [List.getD_append _ _ _ _ (by
        simp only [List.length_append, List.length_take, List.length_drop, hE, hT, hPl]
        omega)]
      rw [List.getD_append_right _ _ _ _ (by
        simp only [List.length_append, List.length_take, hE, hT]
        omega)]
      have h180 : ((m.energy_model x).take 1 ++ (m.timbre_model x).take 179).length = 180 := by
        simp only [List.length_append, List.length_take, hE, hT]
        omega
      rw [h180]
      simp only [Nat.sub_self]
      rw [getD_take _ _ _ _ (by norm_num : (0 : ℕ) < 1)]
      exact getD_set_self _ 0 _ 0 (by rw [hP]; norm_num)

/-- Witness for C4 at the concrete spec-scenario composer. -/
theorem C4_multistream_composition_witness :
    (mstreamExample.energy_stream_sizes = [1]
      ∧ mstreamExample.pitch_stream_sizes = [1, 1, 3]
      ∧ mstreamExample.timbre_stream_sizes = [179, 15]
      ∧ (mstreamExample.energy_model []).length = 1
      ∧ (mstreamExample.pitch_net []).length = 5
      ∧ (mstreamExample.timbre_model []).length = 194
      ∧ mstreamExample.pitch_params.out_lf0_idx = 0)
    ∧ (∃ (corr : ℝ) (pout out : List ℝ) (res : ℝ),
        corr = ((([] : List ℝ).getD mstreamExample.in_lf0_idx 0
              * (mstreamExample.in_lf0_max - mstreamExample.in_lf0_min)
              + mstreamExample.in_lf0_min)
            + 600 * Real.log 2 / 1200 * Real.tanh ((mstreamExample.pitch_net []).getD 0 0)
            - mstreamExample.out_lf0_mean) / mstreamExample.out_lf0_scale
        ∧ pout = (mstreamExample.pitch_net []).set 0 corr
        ∧ mstreamExample.forward [] = some (out, res)
        ∧ out = (mstreamExample.energy_model []).take 1
            ++ (mstreamExample.timbre_model []).take 179
            ++ pout.take 1 ++ (pout.drop 1).take 1
            ++ ((mstreamExample.timbre_model []).drop 179).take 15
            ++ ((pout.drop 1).drop 1).take 3
        ∧ out.length = 200
        ∧ out.getD 180 0 = corr
        ∧ res = 600 * Real.log 2 / 1200
            * Real.tanh ((mstreamExample.pitch_net []).getD 0 0)) := by
  have hT : (mstreamExample.timbre_model []).length = 194 := by
    show (List.replicate 194 (0 : ℝ)).length = 194
    rw [List.length_replicate]
  refine ⟨⟨rfl, rfl, rfl, rfl, rfl, hT, rfl⟩, ?_⟩
  exact (C4_multistream_composition mstreamExample [] rfl rfl rfl rfl rfl hT rfl).2.2

/-- Witness for C10 at the small concrete composer. -/
theorem C10_inference_is_forward_fst_witness :
    mstreamSmall.forward [] = some ([1, 2, 0, 3, 4], 0)
    ∧ mstreamSmall.inference [] = some [1, 2, 0, 3, 4] := by
  have h : mstreamSmall.forward [] = some ([1, 2, 0, 3, 4], 0) := by
    show (mstreamSmall._set_lf0_params).forward_post [] = _
    norm_num [MultistreamParametricModel.forward_post,
      MultistreamParametricModel._set_lf0_params, mstreamSmall, resF0_forward_frame,
      predict_lf0_frame, split_streams_checked, split_streams, Real.tanh_zero]
  exact ⟨h, C10_inference_is_forward_fst mstreamSmall [] _ _ h⟩
